import Mathlib

/-!
# Verification of the CortexSupport backend user/auth flow

A shallow embedding of the user-management backend: the MongoDB `users`
collection is a `List UserDocument`, the pydantic schemas are Lean
structures, and each Python method of `CRUDPaginatedMongo`,
`UserRepository` and `UserService` (plus the JWT helpers of
`app/core/security.py` and the auth dependency chain) becomes a pure Lean
function over that state.  A Python exception escaping a method is
modelled with `Except PyErr`; mutating methods return the new collection
alongside their result.
-/

namespace CortexSupport

/-- Python exceptions that the embedded code paths can raise. -/
inductive PyErr where
  /-- pydantic `ValidationError` raised while constructing a schema object. -/
  | validation
  /-- `bson.errors.InvalidId` raised by `ObjectId(...)` on a malformed id. -/
  | invalidId
  /-- `AttributeError` raised by reading an attribute a model does not define. -/
  | attribute
  /-- `TypeError`, e.g. `get_password_hash(None)`. -/
  | typeError
  /-- `NameError`, raised by referencing a name the module never imports. -/
  | nameError
deriving DecidableEq, Repr

/-- JSON-like values appearing in serialized HTTP response bodies. -/
inductive Jsonish where
  | str (v : String)
  | bool (v : Bool)
  | nat (v : Nat)
  | null
deriving DecidableEq, Repr

/-- The `UserRole` enum of `app/schemas/user.py`. -/
inductive UserRole where
  | user
  | admin
deriving DecidableEq, Repr

/-- A document of the `users` MongoDB collection.  `id` is the stringified
`_id`; note that the document itself carries only the `_id` key — no `id`
key ever exists in a raw document.  Keys that may be absent from a
document, or that a `$set` of an explicit JSON null can null out, are
`Option`s (`none` = absent or null); for `role` the two cases behave
differently on construction (absent defaults, null raises), so it is
two-level: `none` = key absent, `some none` = key null, `some (some r)` =
value.  `UserService.create_user` stores `email`, `username`, `full_name`,
`role`, `hashed_password`, `created_at` and `updated_at` but neither
`disabled` nor `is_superuser`, and never a raw `password` key. -/
structure UserDocument where
  id : String
  email : Option String
  username : Option String
  fullName : Option String
  role : Option (Option UserRole)
  hashedPassword : String
  password : Option String
  disabled : Option Bool
  isSuperuser : Option Bool
  createdAt : Nat
  updatedAt : Nat
deriving DecidableEq, Repr

/-- The `UserCreate` request schema (`app/schemas/user.py`). -/
structure UserCreate where
  email : String
  username : String
  fullName : Option String
  role : UserRole
  password : String
deriving DecidableEq, Repr

/-- The `UserUpdate` partial-update schema.  Each field distinguishes
"not supplied" (outer `none`) from "supplied as JSON null" (`some none`)
from "supplied with a value" (`some (some v)`); pydantic's
`exclude_unset` keys off the outer layer. -/
structure UserUpdate where
  email : Option (Option String)
  username : Option (Option String)
  fullName : Option (Option String)
  password : Option (Option String)
  role : Option (Option UserRole)
deriving DecidableEq, Repr

/-- The `UserResponse` schema: the outward user representation.  It has
no password-hash field, mirroring the pydantic class, whose field set is
`id`, `email`, `username`, `full_name`, `role`, `disabled`,
`is_superuser`, `created_at`, `updated_at`. -/
structure UserResponse where
  id : String
  email : String
  username : String
  fullName : Option String
  role : UserRole
  disabled : Bool
  isSuperuser : Bool
  createdAt : Nat
  updatedAt : Option Nat
deriving DecidableEq, Repr

/-- The `UserInDB` schema.  Its field set is identical to `UserResponse`:
in particular it also declares no `hashed_password` field, and pydantic
silently drops the extra `hashed_password` key when a repository method
runs `UserInDB(**document)`. -/
structure UserInDB where
  id : String
  email : String
  username : String
  fullName : Option String
  role : UserRole
  disabled : Bool
  isSuperuser : Bool
  createdAt : Nat
  updatedAt : Option Nat
deriving DecidableEq, Repr

/-- The paginated dict shape returned by `CRUDPaginatedMongo.get_multi`
and `UserService.get_users`. -/
structure PaginatedResult where
  items : List UserResponse
  total : Nat
  page : Nat
  pageSize : Nat
  totalPages : Nat
deriving DecidableEq, Repr

/-! ## ObjectId -/

/-- Hexadecimal digit test used by `bson.ObjectId.is_valid` on strings. -/
def isHexChar (c : Char) : Bool :=
  c.isDigit || ('a' ≤ c && c ≤ 'f') || ('A' ≤ c && c ≤ 'F')

namespace ObjectId

/-- The string case of `bson.ObjectId.is_valid`: a 24-character hex string. -/
def is_valid (s : String) : Bool :=
  s.length == 24 && s.toList.all isHexChar

end ObjectId

/-! ## Collection primitives

`find_one` with an equality filter returns the first matching document;
`update_one`/`find_one_and_update` modify the first matching document;
`delete_one` removes the first matching document. -/

/-- The result of `find_one` filtered by `_id`. -/
def findById : List UserDocument → String → Option UserDocument
  | [], _ => none
  | d :: rest, id => if d.id == id then some d else findById rest id

/-- The result of `find_one` filtered by `email`.  A document whose
`email` key is absent or null does not match a string-valued filter. -/
def findByEmail : List UserDocument → String → Option UserDocument
  | [], _ => none
  | d :: rest, email =>
    if d.email == some email then some d else findByEmail rest email

/-- The result of `find_one` filtered by `username`. -/
def findByUsername : List UserDocument → String → Option UserDocument
  | [], _ => none
  | d :: rest, username =>
    if d.username == some username then some d else findByUsername rest username

/-- Replace the first document with the given `_id` by its image under
`f`, as `update_one`/`find_one_and_update` do. -/
def updateFirstById (store : List UserDocument) (id : String)
    (f : UserDocument → UserDocument) : List UserDocument :=
  match store with
  | [] => []
  | d :: rest =>
    if d.id == id then f d :: rest else d :: updateFirstById rest id f

/-- Remove the first document with the given `_id`, as `delete_one`
does; the `Bool` is whether `deleted_count > 0`. -/
def removeFirstById (store : List UserDocument) (id : String) :
    Bool × List UserDocument :=
  match store with
  | [] => (false, [])
  | d :: rest =>
    if d.id == id then (true, rest)
    else
      let r := removeFirstById rest id
      (r.1, d :: r.2)

/-! ## Schema construction from documents -/

/-- Construction `UserResponse(**document)` AFTER the caller has set
`document["id"] = str(document["_id"])` — i.e. exactly the
`UserService._convert_to_response` path, the only construction in the
code that supplies the schema's required `id` field.  `email` and
`username` are required (absent or null raises); an absent `role` key
takes the pydantic default `user` while an explicit null raises;
`disabled` and `is_superuser` default to `False` when absent; the
`hashed_password` key, having no schema field, is ignored.  `none` means
the construction raises a pydantic `ValidationError`. -/
def docToUserResponse (d : UserDocument) : Option UserResponse :=
  match d.email, d.username, d.role with
  | some e, some u, some (some r) =>
    some { id := d.id, email := e, username := u, fullName := d.fullName,
           role := r, disabled := d.disabled.getD false,
           isSuperuser := d.isSuperuser.getD false,
           createdAt := d.createdAt, updatedAt := some d.updatedAt }
  | some e, some u, none =>
    some { id := d.id, email := e, username := u, fullName := d.fullName,
           role := .user, disabled := d.disabled.getD false,
           isSuperuser := d.isSuperuser.getD false,
           createdAt := d.createdAt, updatedAt := some d.updatedAt }
  | _, _, _ => none

/-- Construction `self.model(**item)` or `UserInDB(**user)` on a RAW
Mongo document, as `CRUDPaginatedMongo` and `UserRepository` run it:
both schemas declare `id` as a required field with no alias, and a raw
document carries only `_id`, so every such construction raises a
pydantic `ValidationError` — it never produces a model instance. -/
def rawDocToUserResponse : UserDocument → Option UserResponse :=
  fun _ => none

/-- Construct each raw window document of `get_multi`; succeeds (with no
items) only when the window is empty. -/
def rawConvertDocs (docs : List UserDocument) : Option (List UserResponse) :=
  docs.mapM rawDocToUserResponse

/-- JSON text of a `UserRole` value. -/
def UserRole.toName : UserRole → String
  | .user => "user"
  | .admin => "admin"

/-- Serialization of a `UserResponse` by the route layer: the JSON body
holds exactly the schema's fields. -/
def serializeUserResponse (r : UserResponse) : List (String × Jsonish) :=
  [("id", .str r.id),
   ("email", .str r.email),
   ("username", .str r.username),
   ("full_name", match r.fullName with | some v => .str v | none => .null),
   ("role", .str r.role.toName),
   ("disabled", .bool r.disabled),
   ("is_superuser", .bool r.isSuperuser),
   ("created_at", .nat r.createdAt),
   ("updated_at", match r.updatedAt with | some v => .nat v | none => .null)]

/-! ## JWT primitives (`app/core/security.py`)

Times are epoch seconds.  A signed token is modelled as its claim set
together with the secret it was signed with; `jwt.decode` accepts a
token exactly when the verifying secret matches the signing secret and
the current time is before the `exp` claim (RFC 7519 expiry). -/

/-- The claim set carried by an access token: the `sub` claim written by
the login flow (absent when the signing `data` dict had no `"sub"` key)
and the `exp` claim that `create_access_token` always adds. -/
structure TokenPayload where
  sub : Option String
  exp : Nat
deriving DecidableEq, Repr

/-- An encoded JWT: payload plus the HMAC signature, the latter modelled
by the signing secret. -/
structure Jwt where
  payload : TokenPayload
  signedWith : String
deriving DecidableEq, Repr

/-- The `settings.ACCESS_TOKEN_EXPIRE_MINUTES` default (7 days). -/
def ACCESS_TOKEN_EXPIRE_MINUTES : Nat := 60 * 24 * 7

/-- The `create_access_token` function: expiry is `now + expires_delta`,
defaulting to 15 minutes, and the claims are signed with the secret. -/
def create_access_token (secret : String) (dataSub : Option String)
    (expiresDelta : Option Nat) (now : Nat) : Jwt :=
  { payload := { sub := dataSub, exp := now + expiresDelta.getD (15 * 60) },
    signedWith := secret }

/-- The `decode_token` function: `jwt.decode` under the shared secret.
Any failure (wrong signature or expired token) is caught and collapsed
to `none`. -/
def decode_token (secret : String) (now : Nat) (token : Jwt) : Option TokenPayload :=
  if token.signedWith = secret ∧ now < token.payload.exp then some token.payload
  else none

/-! ## `CRUDPaginatedMongo` (`app/db/pagination.py`)

The generic paginated CRUD helper, instantiated (as by `UserService`)
at the `users` collection with response model `UserResponse`.  The
password primitives `get_password_hash`/`verify_password` are passed
explicitly as the `hash` parameter where a method uses them. -/

/-- A `$set` document over the user fields: an outer `some` means the
key occurs in the `$set` payload (inner `none` = set to JSON null). -/
structure SetData where
  email : Option (Option String)
  username : Option (Option String)
  fullName : Option (Option String)
  role : Option (Option UserRole)
  password : Option (Option String)
  hashedPassword : Option String
deriving DecidableEq, Repr

/-- Whether the `$set` payload is the empty dict. -/
def SetData.isEmptyData (s : SetData) : Bool :=
  s.email.isNone && s.username.isNone && s.fullName.isNone &&
    s.role.isNone && s.password.isNone && s.hashedPassword.isNone

/-- Apply a `$set` payload to one document: keys occurring in the
payload overwrite the document's value (possibly with null); all other
keys keep their prior value. -/
def applySet (d : UserDocument) (s : SetData) : UserDocument :=
  { d with
    email := s.email.getD d.email,
    username := s.username.getD d.username,
    fullName := s.fullName.getD d.fullName,
    role := match s.role with | some v => some v | none => d.role,
    password := match s.password with | some v => v | none => d.password,
    hashedPassword := s.hashedPassword.getD d.hashedPassword }

/-- Construct each `UserResponse` of a result page; `none` when some
construction raises. -/
def convertDocs (docs : List UserDocument) : Option (List UserResponse) :=
  docs.mapM docToUserResponse

/-- The non-null value of one field of `obj_in.dict()`: `obj_in.dict()`
flattens unset and explicitly-null fields both to `None`, and the
generic update then drops every `None` value. -/
def suppliedValue {α : Type} : Option (Option α) → Option α
  | some (some v) => some v
  | _ => none

namespace CRUDPaginatedMongo

/-- Mongo evaluates a requested sort on the whole filtered result before
`skip`/`limit` are applied. -/
def orderDocs (matched : List UserDocument)
    (sortOpt : Option (UserDocument → UserDocument → Bool)) : List UserDocument :=
  match sortOpt with
  | none => matched
  | some le => matched.mergeSort le

/-- The `get_multi` method: `skip = (page - 1) * page_size`, `total` is
the count of documents matching the filter, `total_pages` is
`(total + page_size - 1) / page_size`, and the items are built by
running `self.model(**item)` on each raw window document — which raises
`ValidationError` (missing required `id`) as soon as the window holds a
document, so only an empty window yields a successful (empty) page. -/
def get_multi (store : List UserDocument) (page pageSize : Nat)
    (query : UserDocument → Bool)
    (sortOpt : Option (UserDocument → UserDocument → Bool)) :
    Except PyErr PaginatedResult :=
  let skip := (page - 1) * pageSize
  let matched := store.filter query
  let total := matched.length
  let totalPages := (total + pageSize - 1) / pageSize
  let docs := ((orderDocs matched sortOpt).drop skip).take pageSize
  match rawConvertDocs docs with
  | none => .error .validation
  | some items =>
    .ok { items := items, total := total, page := page,
          pageSize := pageSize, totalPages := totalPages }

/-- The `get` method: `None` for a malformed id; `None` when no document
matches; and when a document is found, `self.model(**item)` on the raw
document raises `ValidationError` (missing required `id`). -/
def get (store : List UserDocument) (id : String) :
    Except PyErr (Option UserResponse) :=
  if ObjectId.is_valid id then
    match findById store id with
    | none => .ok none
    | some _d => .error .validation
  else .ok none

/-- The `$set` payload built by the `update` method: only non-null
supplied values remain, under their own keys — the raw `password`
value, when supplied, is stored as a `password` key without hashing. -/
def updateSetData (u : UserUpdate) : SetData :=
  { email := (suppliedValue u.email).map some,
    username := (suppliedValue u.username).map some,
    fullName := (suppliedValue u.fullName).map some,
    role := (suppliedValue u.role).map some,
    password := (suppliedValue u.password).map some,
    hashedPassword := none }

/-- The `update` method: `None` for a malformed id; when the remaining
`$set` payload is empty, a no-op answered by `get`; otherwise
`find_one_and_update` applies the `$set` to the first matching document
— and then `self.model(**result)` on the returned raw document (the
post-update one under `ReturnDocument.AFTER`, the pre-update one
otherwise; either way a raw document with no `id` key) raises
`ValidationError`. -/
def update (store : List UserDocument) (id : String) (objIn : UserUpdate)
    (returnUpdated : Bool) :
    Except PyErr (Option UserResponse) × List UserDocument :=
  if ObjectId.is_valid id then
    let setData := updateSetData objIn
    if setData.isEmptyData then (get store id, store)
    else
      match findById store id with
      | none => (.ok none, store)
      | some _d =>
        let store' := updateFirstById store id (fun x => applySet x setData)
        (.error .validation, store')
  else (.ok none, store)

/-- The `delete` method: `False` for a malformed id, else `delete_one`. -/
def delete (store : List UserDocument) (id : String) :
    Except PyErr Bool × List UserDocument :=
  if ObjectId.is_valid id then
    let r := removeFirstById store id
    (.ok r.1, r.2)
  else (.ok false, store)

end CRUDPaginatedMongo

/-! ## `UserRepository` (`app/repository/user.py`) -/

namespace UserRepository

/-- The repository `get`: `ObjectId(user_id)` raises `InvalidId` on a
malformed id (this method has no `is_valid` guard); `find_one` then
yields `None` when no document matches, and when one is found
`UserInDB(**user)` on the raw document raises `ValidationError` (the
schema's required `id` field is absent — documents only carry `_id`). -/
def get (store : List UserDocument) (userId : String) :
    Except PyErr (Option UserInDB) :=
  if ObjectId.is_valid userId then
    match findById store userId with
    | none => .ok none
    | some _d => .error .validation
  else .error .invalidId

/-- The repository `get_by_email`: `None` when no document matches,
`ValidationError` at `UserInDB(**user)` when one is found. -/
def get_by_email (store : List UserDocument) (email : String) :
    Except PyErr (Option UserInDB) :=
  match findByEmail store email with
  | none => .ok none
  | some _d => .error .validation

/-- The repository `get_by_username`: `None` when no document matches,
`ValidationError` at `UserInDB(**user)` when one is found. -/
def get_by_username (store : List UserDocument) (username : String) :
    Except PyErr (Option UserInDB) :=
  match findByUsername store username with
  | none => .ok none
  | some _d => .error .validation

/-- The `$set` payload built by the repository `update` from
`user.dict(exclude_unset=True)`: every field the client supplied stays
in the payload with its value — including explicit nulls — except that
a supplied `password` is popped and re-hashed into `hashed_password`. -/
def repoSetData (hash : String → String) (u : UserUpdate) : SetData :=
  { email := u.email,
    username := u.username,
    fullName := u.fullName,
    role := u.role,
    password := none,
    hashedPassword :=
      match u.password with
      | some (some p) => some (hash p)
      | _ => none }

/-- The repository `update`.  A `password` supplied as JSON null makes
`get_password_hash(None)` raise `TypeError` before any write.  An empty
payload is answered by `get` without writing; otherwise `update_one`
applies the `$set` to the first matching document and the method
re-reads through `get`. -/
def update (hash : String → String) (store : List UserDocument)
    (userId : String) (u : UserUpdate) :
    Except PyErr (Option UserInDB) × List UserDocument :=
  match u.password with
  | some none => (.error .typeError, store)
  | _ =>
    let setData := repoSetData hash u
    if setData.isEmptyData then (get store userId, store)
    else
      if ObjectId.is_valid userId then
        let store' := updateFirstById store userId (fun x => applySet x setData)
        (get store' userId, store')
      else (.error .invalidId, store)

/-- The repository `delete`: `ObjectId(user_id)` raises on a malformed
id, else `delete_one`. -/
def delete (store : List UserDocument) (userId : String) :
    Except PyErr Bool × List UserDocument :=
  if ObjectId.is_valid userId then
    let r := removeFirstById store userId
    (.ok r.1, r.2)
  else (.error .invalidId, store)

/-- The repository `authenticate`: an unknown username yields `None`
directly; for a known username `get_by_username` already raises
`ValidationError` at `UserInDB(**user)`, which propagates.  The
`.ok (some _)` branch is unreachable — `get_by_username` never produces
a user instance; were one ever produced, the subsequent
`user.hashed_password` read would raise `AttributeError`, since the
`UserInDB` schema declares no such field. -/
def authenticate (store : List UserDocument) (username password : String) :
    Except PyErr (Option UserInDB) :=
  match get_by_username store username with
  | .error e => .error e
  | .ok none => .ok none
  | .ok (some _user) => .error .attribute

end UserRepository

/-! ## `UserService` (`app/services/user_service.py`) -/

namespace UserService

/-- The `_convert_to_response` helper: `None` passes through, otherwise
the document (with `id` set from `_id`) is fed to `UserResponse`. -/
def convert_to_response (o : Option UserDocument) :
    Except PyErr (Option UserResponse) :=
  match o with
  | none => .ok none
  | some d =>
    match docToUserResponse d with
    | some r => .ok (some r)
    | none => .error .validation

/-- The service `get_user`: `None` for a malformed id (guarded by
`ObjectId.is_valid`), else `find_one` by id and conversion. -/
def get_user (store : List UserDocument) (userId : String) :
    Except PyErr (Option UserResponse) :=
  if ObjectId.is_valid userId then convert_to_response (findById store userId)
  else .ok none

/-- The service `get_by_email`. -/
def get_by_email (store : List UserDocument) (email : String) :
    Except PyErr (Option UserResponse) :=
  convert_to_response (findByEmail store email)

/-- The service `get_by_username`. -/
def get_by_username (store : List UserDocument) (username : String) :
    Except PyErr (Option UserResponse) :=
  convert_to_response (findByUsername store username)

/-- The limit clamp at the top of `get_users`:
`limit = max(1, min(100, limit))`. -/
def clampLimit (limit : Int) : Nat :=
  (max 1 (min 100 limit)).toNat

/-- The admin branch of `get_users`: count all documents, then a
skip/limit window over the unfiltered collection, converting each
document. -/
def adminListing (store : List UserDocument) (skip lim : Nat) :
    Except PyErr PaginatedResult :=
  let total := store.length
  let docs := (store.drop skip).take lim
  match convertDocs docs with
  | none => .error .validation
  | some users =>
    .ok { items := users,
          total := total,
          page := if lim > 0 then skip / lim + 1 else 1,
          pageSize := if users.isEmpty then 0 else min lim users.length,
          totalPages := if lim > 0 then (total + lim - 1) / lim else 1 }

/-- The service `get_users`.  The limit is clamped first.  When a
non-superuser `current_user` is given, the method answers with only that
user's own record (looked up by id) under constant pagination metadata;
otherwise it runs the admin listing. -/
def get_users (store : List UserDocument) (skip : Nat) (limit : Int)
    (currentUser : Option UserInDB) : Except PyErr PaginatedResult :=
  let lim := clampLimit limit
  match currentUser with
  | some cu =>
    if cu.isSuperuser then adminListing store skip lim
    else
      match get_user store cu.id with
      | .error e => .error e
      | .ok userOpt =>
        .ok { items := userOpt.toList,
              total := if userOpt.isSome then 1 else 0,
              page := 1, pageSize := 1, totalPages := 1 }
  | none => adminListing store skip lim

/-- The service `create_user`: the collection state after the call comes
second.  An existing user with the same email, or with the same
username, makes the method return `None` without writing — no exception
and no HTTP error is raised on this path.  Otherwise the password is
hashed, creation/update timestamps are stamped, the document is
inserted, re-read by its generated id and converted. -/
def create_user (hash : String → String) (store : List UserDocument)
    (userIn : UserCreate) (now : Nat) (newId : String) :
    Except PyErr (Option UserResponse) × List UserDocument :=
  match get_by_email store userIn.email with
  | .error e => (.error e, store)
  | .ok (some _) => (.ok none, store)
  | .ok none =>
    match get_by_username store userIn.username with
    | .error e => (.error e, store)
    | .ok (some _) => (.ok none, store)
    | .ok none =>
      let doc : UserDocument :=
        { id := newId,
          email := some userIn.email,
          username := some userIn.username,
          fullName := userIn.fullName,
          role := some (some userIn.role),
          hashedPassword := hash userIn.password,
          password := none,
          disabled := none,
          isSuperuser := none,
          createdAt := now,
          updatedAt := now }
      let store' := store ++ [doc]
      (convert_to_response (findById store' newId), store')

/-- An outward failure of the login flow: either the `HTTPException`
that `authenticate_user` raises itself, or a Python exception that
escaped the repository (surfaced by the application-level handler under
a different status code and body). -/
inductive AuthFailure where
  | http (statusCode : Nat) (detail : String)
  | pyError (e : PyErr)
deriving DecidableEq, Repr

/-- The service `authenticate_user`: its body starts with
`UserRepository.authenticate(...)`, but `user_service.py` never imports
`UserRepository`, so every call — whatever the username or password —
raises the same `NameError` before any lookup can happen.  The 401 the
method would raise on a `None` result is unreachable. -/
def authenticate_user (store : List UserDocument) (username password : String) :
    Except AuthFailure UserInDB :=
  .error (.pyError .nameError)

end UserService

/-! ## Auth dependency chain and `GET /users/me`
(`app/core/security.py`, `app/api/v1/endpoints/users.py`)

An outward failure is a `(status code, detail)` pair; a chain success
carries the loaded user. -/

/-- The `get_current_user` dependency of `app/core/security.py`: decode
the bearer token and require a `sub` claim — every token failure
collapses to the same `401 Could not validate credentials`.  The user
load then runs `UserService.get_by_username(username=username)`: the
instance method is called on the class without an instance, so the call
raises `TypeError` (missing `self`) outside the `try` block on every
request whose token decodes, surfacing as the application-level 500. -/
def get_current_user (secret : String) (store : List UserDocument)
    (now : Nat) (token : Jwt) : Except (Nat × String) UserResponse :=
  match decode_token secret now token with
  | none => .error (401, "Could not validate credentials")
  | some payload =>
    match payload.sub with
    | none => .error (401, "Could not validate credentials")
    | some _username => .error (500, "Internal server error")

/-- The `get_current_active_user` dependency: a disabled user is
rejected with status 400. -/
def get_current_active_user (secret : String) (store : List UserDocument)
    (now : Nat) (token : Jwt) : Except (Nat × String) UserResponse :=
  match get_current_user secret store now token with
  | .error e => .error e
  | .ok u => if u.disabled then .error (400, "Inactive user") else .ok u

/-- The outcome of a `GET /users/me` request.  The `/me` handler itself
is unreachable — the earlier-declared `/users/{user_id}` route shadows
it, matching `user_id = "me"` — but whichever handler FastAPI picks
first runs the same `get_current_active_user` dependency, and that
dependency fails on every request (401 for an undecodable token or a
missing `sub`, otherwise the 500 from the `TypeError` above), so the
request's outcome is the dependency's error either way; the success
continuation (serialize the user through the hash-free `UserResponse`
model as an HTTP 200) is dead code. -/
def read_user_me (secret : String) (store : List UserDocument)
    (now : Nat) (token : Jwt) :
    Except (Nat × String) (List (String × Jsonish)) :=
  (get_current_active_user secret store now token).map serializeUserResponse

/-! ## Reachable collection states

The public write operations on the `users` collection are registration
(`UserService.create_user`), the self-update behind `PUT /users/me`
(which lands in `UserRepository.update`) and the self-delete behind
`DELETE /users/me` (which lands in `UserRepository.delete`). -/

/-- Collection states reachable from the empty collection through the
public write operations, with passwords hashed by `hash`. -/
inductive Reachable (hash : String → String) : List UserDocument → Prop where
  | nil : Reachable hash []
  | create (s : List UserDocument) (inp : UserCreate) (now : Nat) (newId : String) :
      Reachable hash s →
      Reachable hash (UserService.create_user hash s inp now newId).2
  | update (s : List UserDocument) (userId : String) (u : UserUpdate) :
      Reachable hash s →
      Reachable hash (UserRepository.update hash s userId u).2
  | delete (s : List UserDocument) (userId : String) :
      Reachable hash s →
      Reachable hash (UserRepository.delete s userId).2

/-- The stored-credential invariant: no document carries a raw
`password` key, and every stored `hashed_password` value is the hash of
some submitted password. -/
def storedPasswordsHashed (hash : String → String) (s : List UserDocument) : Prop :=
  ∀ d ∈ s, d.password = none ∧ ∃ p, d.hashedPassword = hash p

/-! ## Concrete example values -/

/-- A concrete stand-in for the bcrypt hash primitive, used to evaluate
the embedding on closed inputs. -/
def exHash : String → String := fun p => String.append "bcrypt-sentinel-" p

/-- A generated ObjectId (24 hex characters). -/
def oid1 : String := "507f1f77bcf86cd799439011"

/-- A second, distinct generated ObjectId. -/
def oid2 : String := "507f1f77bcf86cd799439012"

/-- The registration payload of the repository's duplicate-username test. -/
def exIn1 : UserCreate :=
  { email := "test1@example.com", username := "duplicate",
    fullName := some "Test User", role := .user, password := "testpassword" }

/-- The same username registered again under a different email. -/
def exIn2 : UserCreate := { exIn1 with email := "test2@example.com" }

/-- The collection after the first successful registration. -/
def exStore1 : List UserDocument :=
  (UserService.create_user exHash [] exIn1 1 oid1).2

/-- A stored user document with its `hashed_password` present, as the
registration flow writes it. -/
def aliceDoc : UserDocument :=
  { id := oid1, email := some "alice@example.com", username := some "alice",
    fullName := none, role := some (some .user),
    hashedPassword := exHash "alicepassword", password := none,
    disabled := none, isSuperuser := none, createdAt := 0, updatedAt := 0 }

/-- A partial update whose only supplied field is an explicit JSON null
for `email` — "all fields absent or null" in the claim's wording. -/
def exNullUpdate : UserUpdate :=
  { email := some none, username := none, fullName := none,
    password := none, role := none }

/-- The truly empty partial update: no field supplied at all. -/
def exUnsetUpdate : UserUpdate :=
  { email := none, username := none, fullName := none,
    password := none, role := none }

/-- The `UserResponse` produced by the first registration of `exIn1`. -/
def exResp1 : UserResponse :=
  { id := oid1, email := "test1@example.com", username := "duplicate",
    fullName := some "Test User", role := .user, disabled := false,
    isSuperuser := false, createdAt := 1, updatedAt := some 1 }

/-- The `UserResponse` serialization of `aliceDoc`. -/
def aliceResp : UserResponse :=
  { id := oid1, email := "alice@example.com", username := "alice",
    fullName := none, role := .user, disabled := false,
    isSuperuser := false, createdAt := 0, updatedAt := some 0 }

/-- Alice as an authenticated non-superuser `current_user`. -/
def cuAlice : UserInDB :=
  { id := oid1, email := "alice@example.com", username := "alice",
    fullName := none, role := .user, disabled := false,
    isSuperuser := false, createdAt := 0, updatedAt := some 0 }

/-- An authenticated superuser `current_user`. -/
def cuRoot : UserInDB := { cuAlice with isSuperuser := true }

end CortexSupport

deriving instance DecidableEq for Except

namespace CortexSupport

/-! ## Helper lemmas -/

/-- A member of the collection after `update_one` is either an untouched
old document or the image of an old document under the update. -/
theorem mem_updateFirstById {store : List UserDocument} {mid : String}
    {f : UserDocument → UserDocument} {x : UserDocument}
    (hx : x ∈ updateFirstById store mid f) :
    x ∈ store ∨ ∃ d ∈ store, x = f d := by
  induction store with
  | nil => simp [updateFirstById] at hx
  | cons d rest ih =>
    by_cases h : (d.id == mid) = true
    · simp [updateFirstById, h] at hx
      rcases hx with h1 | h2
      · exact Or.inr ⟨d, by simp, h1⟩
      · exact Or.inl (by simp [h2])
    · simp [updateFirstById, h] at hx
      rcases hx with h1 | h2
      · exact Or.inl (by simp [h1])
      · rcases ih h2 with h3 | ⟨e, he, hxe⟩
        · exact Or.inl (by simp [h3])
        · exact Or.inr ⟨e, by simp [he], hxe⟩

/-- A member of the collection after `delete_one` was a member before. -/
theorem mem_removeFirstById {store : List UserDocument} {mid : String}
    {x : UserDocument} (hx : x ∈ (removeFirstById store mid).2) : x ∈ store := by
  induction store with
  | nil => simp [removeFirstById] at hx
  | cons d rest ih =>
    by_cases h : (d.id == mid) = true
    · simp [removeFirstById, h] at hx
      simp [hx]
    · simp [removeFirstById, h] at hx
      rcases hx with h1 | h2
      · simp [h1]
      · simp [ih h2]

/-- `update_one` keyed on `_id` commutes with a subsequent `find_one` by
the same `_id`, provided the update does not rewrite `_id`. -/
theorem findById_updateFirstById (store : List UserDocument) (mid : String)
    (f : UserDocument → UserDocument) (hf : ∀ d, (f d).id = d.id) :
    findById (updateFirstById store mid f) mid = (findById store mid).map f := by
  induction store with
  | nil => simp [updateFirstById, findById]
  | cons d rest ih =>
    by_cases h : (d.id == mid) = true
    · simp [updateFirstById, findById, h, hf]
    · simp [updateFirstById, findById, h, ih]

/-- `applySet` never rewrites `_id`. -/
theorem applySet_id (d : UserDocument) (s : SetData) : (applySet d s).id = d.id := rfl

/-- The clamped limit of `get_users` is at least 1. -/
theorem one_le_clampLimit (limit : Int) : 1 ≤ UserService.clampLimit limit := by
  unfold UserService.clampLimit
  omega

/-- The clamped limit of `get_users` is at most 100. -/
theorem clampLimit_le_100 (limit : Int) : UserService.clampLimit limit ≤ 100 := by
  unfold UserService.clampLimit
  omega

/-- Sorting a result set does not change how many documents it has. -/
theorem length_orderDocs (matched : List UserDocument)
    (sortOpt : Option (UserDocument → UserDocument → Bool)) :
    (CRUDPaginatedMongo.orderDocs matched sortOpt).length = matched.length := by
  cases sortOpt with
  | none => rfl
  | some le => exact (List.mergeSort_perm matched le).length_eq

/-! ## C7 — token mint/decode round trip -/

/-- C7: for every subject and every ttl (provided, or the 15-minute
default), a token minted for that subject decodes under the shared
secret to the same subject claim at every time strictly before
`now + ttl`, and decodes to `invalid` at every time at or after
`now + ttl`. -/
theorem token_mint_decode_roundtrip (secret subj : String)
    (expiresDelta : Option Nat) (now t : Nat) :
    (t < now + expiresDelta.getD (15 * 60) →
      decode_token secret t (create_access_token secret (some subj) expiresDelta now) =
        some { sub := some subj, exp := now + expiresDelta.getD (15 * 60) }) ∧
    (now + expiresDelta.getD (15 * 60) ≤ t →
      decode_token secret t (create_access_token secret (some subj) expiresDelta now) =
        none) := by
  constructor
  · intro h
    simp [decode_token, create_access_token, h]
  · intro h
    simp [decode_token, create_access_token] at h ⊢
    omega

/-- Witness for C7 at secret `"k"`, subject `"alice"`, ttl 100: the
token decodes to the same subject at time 10 and is invalid at its
expiry instant 100. -/
theorem token_mint_decode_roundtrip_witness :
    decode_token "k" 10 (create_access_token "k" (some "alice") (some 100) 0) =
      some { sub := some "alice", exp := 100 } ∧
    decode_token "k" 100 (create_access_token "k" (some "alice") (some 100) 0) =
      none :=
  ⟨(token_mint_decode_roundtrip "k" "alice" (some 100) 0 10).1 (by decide),
   (token_mint_decode_roundtrip "k" "alice" (some 100) 0 100).2 (by decide)⟩

/-! ## C1 — duplicate registration -/

/-- C1 (divergence witness): registering `duplicate` succeeds and
returns the created user, but the second registration of the same
username under a different email makes `UserService.create_user` return
Python `None` (`.ok none`) with the collection unchanged: no conflict
outcome is produced anywhere on this path, so the register route hands
`None` to its non-optional 201 response model instead of answering 400. -/
theorem register_duplicate_yields_none :
    (UserService.create_user exHash [] exIn1 1 oid1).1 = .ok (some exResp1) ∧
    (UserService.create_user exHash exStore1 exIn2 2 oid2).1 = .ok none ∧
    (UserService.create_user exHash exStore1 exIn2 2 oid2).2 = exStore1 := by
  decide

/-! ## C4 — authenticate failure signals -/

/-- C4 (divergence witness): with a stored user `alice`, the two inputs
the claim compares do not produce the identical unauthorized signal
anywhere.  At the repository layer they are distinguishable: an unknown
username yields `None`, while a known username raises `ValidationError`
at `UserInDB(**user)` (the raw document lacks the schema's required
`id`).  At the service layer every call fails identically — but with
`NameError` (`user_service.py` never imports `UserRepository`), a server
error rather than an unauthorized signal, and it fires even for correct
credentials, so no 401-vs-anything distinction is ever produced by the
code that should produce one. -/
theorem authenticate_known_vs_unknown :
    UserRepository.authenticate [aliceDoc] "alice" "wrongpassword" =
      .error .validation ∧
    UserRepository.authenticate [aliceDoc] "ghost" "wrongpassword" =
      .ok none ∧
    UserService.authenticate_user [aliceDoc] "alice" "wrongpassword" =
      .error (.pyError .nameError) ∧
    UserService.authenticate_user [aliceDoc] "ghost" "wrongpassword" =
      .error (.pyError .nameError) ∧
    UserService.authenticate_user [aliceDoc] "alice" "alicepassword" =
      .error (.pyError .nameError) := by
  decide

/-! ## C8 — behaviour of `get` on malformed and unknown identifiers -/

/-- C8 counterexample: `UserRepository.get` raises `bson.InvalidId` on a
malformed identifier instead of returning absent, refuting the claim
that the repository get operations never raise on malformed ids. -/
theorem repository_get_malformed_id_raises :
    UserRepository.get [] "not-a-valid-objectid" = .error .invalidId := by
  decide

/-- C8 (amended): `CRUDPaginatedMongo.get` and `UserService.get_user`
return absent (not an error) for malformed and for unknown identifiers;
`UserRepository.get` returns absent for a well-formed unknown identifier
but raises `InvalidId` on a malformed one. -/
theorem get_absent_behavior :
    (∀ (store : List UserDocument) (mid : String),
        ObjectId.is_valid mid = false →
        CRUDPaginatedMongo.get store mid = .ok none ∧
        UserService.get_user store mid = .ok none ∧
        UserRepository.get store mid = .error .invalidId) ∧
    (∀ (store : List UserDocument) (mid : String),
        findById store mid = none →
        CRUDPaginatedMongo.get store mid = .ok none ∧
        UserService.get_user store mid = .ok none ∧
        (ObjectId.is_valid mid = true → UserRepository.get store mid = .ok none)) := by
  constructor
  · intro store mid h
    refine ⟨?_, ?_, ?_⟩ <;>
      simp [CRUDPaginatedMongo.get, UserService.get_user, UserRepository.get, h]
  · intro store mid h
    refine ⟨?_, ?_, ?_⟩
    · by_cases hv : ObjectId.is_valid mid <;>
        simp [CRUDPaginatedMongo.get, h, hv]
    · by_cases hv : ObjectId.is_valid mid <;>
        simp [UserService.get_user, UserService.convert_to_response, h, hv]
    · intro hv
      simp [UserRepository.get, h, hv]

/-- Witness for C8 (amended): a malformed id against a non-empty
collection, and a well-formed id unknown to the empty collection. -/
theorem get_absent_behavior_witness :
    CRUDPaginatedMongo.get [aliceDoc] "zz" = .ok none ∧
    UserRepository.get ([] : List UserDocument) oid2 = .ok none :=
  ⟨(get_absent_behavior.1 [aliceDoc] "zz" (by decide)).1,
   (get_absent_behavior.2 [] oid2 (by decide)).2.2 (by decide)⟩

end CortexSupport

namespace CortexSupport

/-! ## C2 — `GET /users/me` -/

/-- C2 (divergence witness): alice is stored and not disabled, her
default-ttl token is minted with the shared secret and decodes at time 5
to her own `sub` claim — yet `GET /users/me` answers the 500 from the
dependency chain, never a 200 with her record: the `get_current_user`
dependency calls `UserService.get_by_username` on the class without an
instance (`TypeError`) on every request whose token decodes, and the
`/me` handler is in any case shadowed by the earlier `/users/{user_id}`
route. -/
theorem read_user_me_valid_token_errors :
    decode_token "k" 5 (create_access_token "k" (some "alice") none 0) =
      some { sub := some "alice", exp := 900 } ∧
    findByUsername [aliceDoc] "alice" = some aliceDoc ∧
    aliceDoc.disabled = none ∧
    read_user_me "k" [aliceDoc] 5
        (create_access_token "k" (some "alice") none 0) =
      .error (500, "Internal server error") := by
  decide

/-! ## C3 — pagination behaviour of `get_multi` -/

/-- C3 counterexample: at page 1, page size 10, the trivial filter and a
one-document collection, `get_multi` does not report anything — it
raises `ValidationError`, because `self.model(**item)` runs on a raw
window document that lacks the required `id` field.  The claim's
"for every collection state ... reports total ..." is therefore false as
soon as the window is non-empty. -/
theorem get_multi_nonempty_window_raises :
    CRUDPaginatedMongo.get_multi [aliceDoc] 1 10 (fun _ => true) none =
      .error .validation := by
  decide

/-- C3 (amended): for every page ≥ 1, page size in 1..100, filter,
optional sort and collection state: a successful `get_multi` reports
`total` as the count of matching documents, `total_pages` as the ceiling
of `total / page_size`, echoes `page` and `page_size` — and necessarily
has an empty items slice; in particular, when the skip
`(page-1)*page_size` exceeds the total the call still succeeds with
empty items (not an error).  But whenever the window obtained by
skipping `(page-1)*page_size` and taking `page_size` holds at least one
document, `get_multi` raises `ValidationError` instead of returning the
page (`self.model(**item)` on a raw document with no `id` key). -/
theorem get_multi_pagination_spec (store : List UserDocument)
    (page pageSize : Nat) (query : UserDocument → Bool)
    (sortOpt : Option (UserDocument → UserDocument → Bool))
    (hpage : 1 ≤ page) (hps : 1 ≤ pageSize) (hps' : pageSize ≤ 100) :
    (∀ res, CRUDPaginatedMongo.get_multi store page pageSize query sortOpt = .ok res →
        res.items = [] ∧
        res.total = (store.filter query).length ∧
        res.totalPages = res.total ⌈/⌉ pageSize ∧
        res.page = page ∧
        res.pageSize = pageSize) ∧
    ((store.filter query).length < (page - 1) * pageSize →
      CRUDPaginatedMongo.get_multi store page pageSize query sortOpt =
        .ok { items := [],
              total := (store.filter query).length,
              page := page, pageSize := pageSize,
              totalPages := (store.filter query).length ⌈/⌉ pageSize }) ∧
    (∀ d ds,
      ((CRUDPaginatedMongo.orderDocs (store.filter query) sortOpt).drop
          ((page - 1) * pageSize)).take pageSize = d :: ds →
      CRUDPaginatedMongo.get_multi store page pageSize query sortOpt =
        .error .validation) := by
  have hdropnil : (store.filter query).length < (page - 1) * pageSize →
      ((CRUDPaginatedMongo.orderDocs (store.filter query) sortOpt).drop
          ((page - 1) * pageSize)) = [] := by
    intro hskip
    apply List.drop_eq_nil_of_le
    rw [length_orderDocs]
    omega
  refine ⟨?_, ?_, ?_⟩
  · intro res hres
    cases hw : ((CRUDPaginatedMongo.orderDocs (store.filter query) sortOpt).drop
        ((page - 1) * pageSize)).take pageSize with
    | nil =>
      simp only [CRUDPaginatedMongo.get_multi, hw, rawConvertDocs,
        List.mapM, List.mapM.loop, Except.ok.injEq] at hres
      subst hres
      refine ⟨rfl, rfl, ?_, rfl, rfl⟩
      rw [Nat.ceilDiv_eq_add_pred_div]
    | cons d ds =>
      simp [CRUDPaginatedMongo.get_multi, hw, rawConvertDocs,
        rawDocToUserResponse, List.mapM, List.mapM.loop] at hres
  · intro hskip
    simp only [CRUDPaginatedMongo.get_multi]
    rw [hdropnil hskip]
    simp [rawConvertDocs, List.mapM, List.mapM.loop, Nat.ceilDiv_eq_add_pred_div]
  · intro d ds hw
    simp [CRUDPaginatedMongo.get_multi, hw, rawConvertDocs,
      rawDocToUserResponse, List.mapM, List.mapM.loop]

/-- Witness for C3 (amended): on a one-document collection with the
trivial filter, page 5 (skip beyond total) succeeds with empty items and
the claimed metadata, while page 1 (non-empty window) raises. -/
theorem get_multi_pagination_spec_witness :
    CRUDPaginatedMongo.get_multi [aliceDoc] 5 10 (fun _ => true) none =
      .ok { items := [], total := 1, page := 5, pageSize := 10, totalPages := 1 } ∧
    CRUDPaginatedMongo.get_multi [aliceDoc] 1 10 (fun _ => true) none =
      .error .validation := by
  constructor
  · have h := (get_multi_pagination_spec [aliceDoc] 5 10 (fun _ => true) none
      (by decide) (by decide) (by decide)).2.1 (by decide)
    simpa using h
  · exact (get_multi_pagination_spec [aliceDoc] 1 10 (fun _ => true) none
      (by decide) (by decide) (by decide)).2.2 aliceDoc [] (by decide)

end CortexSupport

namespace CortexSupport

/-! ## C5 — permission scoping of the user listing -/

/-- C5: a non-superuser requester whose record is stored always receives
exactly one item — their own record — with constant pagination metadata,
whatever `skip` and `limit` were; a superuser receives the full paginated
listing over the whole collection. -/
theorem get_users_permission_scoping (store : List UserDocument)
    (skip : Nat) (limit : Int) :
    (∀ (cu : UserInDB) (d : UserDocument) (r : UserResponse),
        cu.isSuperuser = false →
        ObjectId.is_valid cu.id = true →
        findById store cu.id = some d →
        docToUserResponse d = some r →
        UserService.get_users store skip limit (some cu) =
          .ok { items := [r], total := 1, page := 1, pageSize := 1,
                totalPages := 1 }) ∧
    (∀ (cu : UserInDB) (users : List UserResponse),
        cu.isSuperuser = true →
        convertDocs ((store.drop skip).take (UserService.clampLimit limit)) =
          some users →
        UserService.get_users store skip limit (some cu) =
          .ok { items := users,
                total := store.length,
                page := skip / UserService.clampLimit limit + 1,
                pageSize := if users.isEmpty then 0
                  else min (UserService.clampLimit limit) users.length,
                totalPages := (store.length + UserService.clampLimit limit - 1) /
                  UserService.clampLimit limit }) := by
  constructor
  · intro cu d r hsup hvalid hfind hconv
    simp [UserService.get_users, hsup, UserService.get_user, hvalid, hfind,
      UserService.convert_to_response, hconv]
  · intro cu users hsup hconv
    have hlim := one_le_clampLimit limit
    simp [UserService.get_users, hsup, UserService.adminListing, hconv,
      Nat.lt_of_lt_of_le Nat.zero_lt_one hlim]

/-- Witness for C5: alice (non-superuser) gets only herself even with
`skip = 3`, `limit = 50`; a superuser at `skip = 0`, `limit = 10` gets
the whole one-user listing. -/
theorem get_users_permission_scoping_witness :
    UserService.get_users [aliceDoc] 3 50 (some cuAlice) =
      .ok { items := [aliceResp], total := 1, page := 1, pageSize := 1,
            totalPages := 1 } ∧
    UserService.get_users [aliceDoc] 0 10 (some cuRoot) =
      .ok { items := [aliceResp],
            total := 1,
            page := 0 / UserService.clampLimit 10 + 1,
            pageSize := if ([aliceResp] : List UserResponse).isEmpty then 0
              else min (UserService.clampLimit 10) [aliceResp].length,
            totalPages := (1 + UserService.clampLimit 10 - 1) /
              UserService.clampLimit 10 } :=
  ⟨(get_users_permission_scoping [aliceDoc] 3 50).1 cuAlice aliceDoc aliceResp
      (by decide) (by decide) (by decide) (by decide),
   (get_users_permission_scoping [aliceDoc] 0 10).2 cuRoot [aliceResp]
      (by decide) (by decide)⟩

/-! ## C10 — limit clamping and reported metadata of `get_users` -/

/-- C10: `get_users` clamps the limit into 1..100 before use; in the
non-superuser branch the reported metadata is constantly
`page = page_size = total_pages = 1` whatever `skip` and `limit` were;
and in the superuser branch the reported `page_size` is the minimum of
the effective limit and the number of items actually returned (0 when
there are none), not the requested limit itself. -/
theorem get_users_limit_and_metadata (store : List UserDocument)
    (skip : Nat) (limit : Int) :
    (1 ≤ UserService.clampLimit limit ∧ UserService.clampLimit limit ≤ 100) ∧
    (∀ (cu : UserInDB) (res : PaginatedResult),
        cu.isSuperuser = false →
        UserService.get_users store skip limit (some cu) = .ok res →
        res.page = 1 ∧ res.pageSize = 1 ∧ res.totalPages = 1) ∧
    (∀ (cu : UserInDB) (res : PaginatedResult),
        cu.isSuperuser = true →
        UserService.get_users store skip limit (some cu) = .ok res →
        res.pageSize = if res.items.isEmpty then 0
          else min (UserService.clampLimit limit) res.items.length) := by
  refine ⟨⟨one_le_clampLimit limit, clampLimit_le_100 limit⟩, ?_, ?_⟩
  · intro cu res hsup hres
    simp only [UserService.get_users, hsup, Bool.false_eq_true, if_false] at hres
    cases hget : UserService.get_user store cu.id with
    | error e => rw [hget] at hres; exact absurd hres (by simp)
    | ok userOpt =>
      rw [hget] at hres
      simp only [Except.ok.injEq] at hres
      subst hres
      exact ⟨rfl, rfl, rfl⟩
  · intro cu res hsup hres
    simp only [UserService.get_users, hsup, if_true] at hres
    unfold UserService.adminListing at hres
    cases hcd : convertDocs ((store.drop skip).take (UserService.clampLimit limit)) with
    | none => simp [hcd] at hres
    | some users =>
      simp only [hcd, Except.ok.injEq] at hres
      subst hres
      rfl

/-- Witness for C10: the one-user collection at `skip = 0`,
`limit = 10`, under a non-superuser and under a superuser. -/
theorem get_users_limit_and_metadata_witness :
    (1 ≤ UserService.clampLimit 10 ∧ UserService.clampLimit 10 ≤ 100) ∧
    ({ items := [aliceResp], total := 1, page := 1, pageSize := 1,
       totalPages := 1 : PaginatedResult }).pageSize = 1 ∧
    ({ items := [aliceResp], total := 1, page := 1, pageSize := 1,
       totalPages := 1 : PaginatedResult }).pageSize =
      (if ({ items := [aliceResp], total := 1, page := 1, pageSize := 1,
             totalPages := 1 : PaginatedResult }).items.isEmpty then 0
       else min (UserService.clampLimit 10)
         ({ items := [aliceResp], total := 1, page := 1, pageSize := 1,
            totalPages := 1 : PaginatedResult }).items.length) :=
  ⟨(get_users_limit_and_metadata [aliceDoc] 0 10).1,
   ((get_users_limit_and_metadata [aliceDoc] 0 10).2.1 cuAlice _
      (by decide) (by decide)).2.1,
   (get_users_limit_and_metadata [aliceDoc] 0 10).2.2 cuRoot _
      (by decide) (by decide)⟩

end CortexSupport

namespace CortexSupport

/-! ## C6 — stored passwords are always hashes -/

/-- `create_user` either leaves the collection unchanged or appends the
one document it builds, whose `hashed_password` is the hash of the
submitted password and which has no raw `password` key. -/
theorem create_user_store_cases (hash : String → String)
    (s : List UserDocument) (inp : UserCreate) (now : Nat) (newId : String) :
    (UserService.create_user hash s inp now newId).2 = s ∨
    (UserService.create_user hash s inp now newId).2 =
      s ++ [{ id := newId, email := some inp.email, username := some inp.username,
              fullName := inp.fullName, role := some (some inp.role),
              hashedPassword := hash inp.password, password := none,
              disabled := none, isSuperuser := none,
              createdAt := now, updatedAt := now }] := by
  unfold UserService.create_user
  cases hge : UserService.get_by_email s inp.email with
  | error e => exact Or.inl rfl
  | ok oe =>
    cases oe with
    | some u => exact Or.inl rfl
    | none =>
      cases hgu : UserService.get_by_username s inp.username with
      | error e => exact Or.inl rfl
      | ok ou =>
        cases ou with
        | some u => exact Or.inl rfl
        | none => exact Or.inr rfl

/-- `UserRepository.update` either leaves the collection unchanged or
rewrites the first matching document through `applySet` of its `$set`
payload. -/
theorem repo_update_store_cases (hash : String → String)
    (s : List UserDocument) (userId : String) (u : UserUpdate) :
    (UserRepository.update hash s userId u).2 = s ∨
    (UserRepository.update hash s userId u).2 =
      updateFirstById s userId
        (fun x => applySet x (UserRepository.repoSetData hash u)) := by
  unfold UserRepository.update
  rcases hp : u.password with _ | op
  · by_cases he : (UserRepository.repoSetData hash u).isEmptyData
    · simp [hp, he]
    · by_cases hv : ObjectId.is_valid userId <;> simp [hp, he, hv]
  · cases op with
    | none => exact Or.inl rfl
    | some p =>
      by_cases he : (UserRepository.repoSetData hash u).isEmptyData
      · simp [hp, he]
      · by_cases hv : ObjectId.is_valid userId <;> simp [hp, he, hv]

/-- `UserRepository.delete` either leaves the collection unchanged or
removes the first matching document. -/
theorem repo_delete_store_cases (s : List UserDocument) (userId : String) :
    (UserRepository.delete s userId).2 = s ∨
    (UserRepository.delete s userId).2 = (removeFirstById s userId).2 := by
  unfold UserRepository.delete
  by_cases hv : ObjectId.is_valid userId <;> simp [hv]

/-- The repository `$set` payload never contains a raw `password` key,
and sets `hashed_password` (when at all) only to a hash. -/
theorem applySet_repoSetData_credentials (hash : String → String)
    (u : UserUpdate) (d : UserDocument) :
    (applySet d (UserRepository.repoSetData hash u)).password = d.password ∧
    ((applySet d (UserRepository.repoSetData hash u)).hashedPassword =
        d.hashedPassword ∨
      ∃ p, (applySet d (UserRepository.repoSetData hash u)).hashedPassword =
        hash p) := by
  constructor
  · rfl
  · rcases hp : u.password with _ | (_ | p) <;>
      simp [applySet, UserRepository.repoSetData, hp]

/-- C6: in every collection state reachable through the public write
operations, no user document carries a raw `password` key and every
stored `hashed_password` value is derived by the hash primitive from
some submitted password — no operation writes a plaintext password. -/
theorem reachable_stores_passwords_hashed (hash : String → String)
    (s : List UserDocument) (h : Reachable hash s) :
    storedPasswordsHashed hash s := by
  induction h with
  | nil => intro d hd; simp at hd
  | create s inp now newId _ ih =>
    intro d hd
    rcases create_user_store_cases hash s inp now newId with hc | hc
    · exact ih d (hc ▸ hd)
    · rw [hc] at hd
      rcases List.mem_append.1 hd with hmem | hnew
      · exact ih d hmem
      · simp at hnew
        subst hnew
        exact ⟨rfl, inp.password, rfl⟩
  | update s userId u _ ih =>
    intro d hd
    rcases repo_update_store_cases hash s userId u with hc | hc
    · exact ih d (hc ▸ hd)
    · rw [hc] at hd
      rcases mem_updateFirstById hd with hmem | ⟨e, he, hde⟩
      · exact ih d hmem
      · subst hde
        obtain ⟨hpw, hh⟩ := applySet_repoSetData_credentials hash u e
        obtain ⟨hpe, p, hpe'⟩ := ih e he
        refine ⟨hpw.trans hpe, ?_⟩
        rcases hh with hh | ⟨q, hq⟩
        · exact ⟨p, hh.trans hpe'⟩
        · exact ⟨q, hq⟩
  | delete s userId _ ih =>
    intro d hd
    rcases repo_delete_store_cases s userId with hc | hc
    · exact ih d (hc ▸ hd)
    · exact ih d (mem_removeFirstById (hc ▸ hd))

/-- Witness for C6: the invariant holds of the concrete collection
reached by one registration followed by one self-update that changes the
password. -/
theorem reachable_stores_passwords_hashed_witness :
    storedPasswordsHashed exHash
      (UserRepository.update exHash exStore1 oid1
        { email := none, username := none, fullName := none,
          password := some (some "newpassword123"), role := none }).2 :=
  reachable_stores_passwords_hashed exHash _
    (Reachable.update _ oid1 _ (Reachable.create [] exIn1 1 oid1 Reachable.nil))

end CortexSupport

namespace CortexSupport

/-! ## C9 — partial-update semantics -/

/-- C9 counterexample: a partial whose every field is absent or null
(here: `email` supplied as explicit JSON null, all else unset) is not a
no-op under `UserRepository.update` — the stored document's `email` is
overwritten with null, the collection changes, and re-reading the
record raises a validation error instead of returning it unchanged. -/
theorem repo_update_explicit_null_not_noop :
    (UserRepository.update exHash [aliceDoc] oid1 exNullUpdate).2 ≠ [aliceDoc] ∧
    (findById (UserRepository.update exHash [aliceDoc] oid1 exNullUpdate).2
        oid1).map UserDocument.email = some none ∧
    (UserRepository.update exHash [aliceDoc] oid1 exNullUpdate).1 =
      .error .validation := by
  decide

/-- An all-null-or-absent partial yields the empty generic `$set`
payload. -/
theorem updateSetData_empty_of (u : UserUpdate)
    (h1 : suppliedValue u.email = none) (h2 : suppliedValue u.username = none)
    (h3 : suppliedValue u.fullName = none) (h4 : suppliedValue u.password = none)
    (h5 : suppliedValue u.role = none) :
    (CRUDPaginatedMongo.updateSetData u).isEmptyData = true := by
  simp only [CRUDPaginatedMongo.updateSetData, SetData.isEmptyData]
  rw [h1, h2, h3, h4, h5]
  rfl

/-- An empty generic `$set` payload means every field of the partial was
absent or null. -/
theorem updateSetData_empty_fields (u : UserUpdate)
    (h : (CRUDPaginatedMongo.updateSetData u).isEmptyData = true) :
    suppliedValue u.email = none ∧ suppliedValue u.username = none ∧
    suppliedValue u.fullName = none ∧ suppliedValue u.password = none ∧
    suppliedValue u.role = none := by
  simp [CRUDPaginatedMongo.updateSetData, SetData.isEmptyData,
    Option.map_eq_none'] at h
  exact ⟨by tauto, by tauto, by tauto, by tauto, by tauto⟩

/-- An empty repository `$set` payload means every field of the partial
was unset (given no field was supplied as an explicit null, `password`
included). -/
theorem repoSetData_empty_fields (hash : String → String) (u : UserUpdate)
    (hpw : u.password ≠ some none)
    (h : (UserRepository.repoSetData hash u).isEmptyData = true) :
    u.email = none ∧ u.username = none ∧ u.fullName = none ∧
    u.role = none ∧ u.password = none := by
  rcases hp : u.password with _ | (_ | p)
  · simp [UserRepository.repoSetData, SetData.isEmptyData, hp] at h
    exact ⟨by tauto, by tauto, by tauto, by tauto, rfl⟩
  · exact absurd hp hpw
  · simp [UserRepository.repoSetData, SetData.isEmptyData, hp] at h

/-- Field-level effect of the generic update's `$set` on the matched
document: a non-null supplied value overwrites, everything else keeps
its prior value, and credentials and timestamps are untouched. -/
theorem applySet_updateSetData_fields (u : UserUpdate) (d : UserDocument) :
    (applySet d (CRUDPaginatedMongo.updateSetData u)).email =
      (match suppliedValue u.email with | some v => some v | none => d.email) ∧
    (applySet d (CRUDPaginatedMongo.updateSetData u)).username =
      (match suppliedValue u.username with
       | some v => some v | none => d.username) ∧
    (applySet d (CRUDPaginatedMongo.updateSetData u)).fullName =
      (match suppliedValue u.fullName with
       | some v => some v | none => d.fullName) ∧
    (applySet d (CRUDPaginatedMongo.updateSetData u)).role =
      (match suppliedValue u.role with
       | some v => some (some v) | none => d.role) ∧
    (applySet d (CRUDPaginatedMongo.updateSetData u)).password =
      (match suppliedValue u.password with
       | some v => some v | none => d.password) ∧
    (applySet d (CRUDPaginatedMongo.updateSetData u)).hashedPassword =
      d.hashedPassword ∧
    (applySet d (CRUDPaginatedMongo.updateSetData u)).createdAt = d.createdAt ∧
    (applySet d (CRUDPaginatedMongo.updateSetData u)).updatedAt = d.updatedAt := by
  refine ⟨?_, ?_, ?_, ?_, ?_, rfl, rfl, rfl⟩
  · rcases hu : u.email with _ | (_ | v) <;>
      simp [applySet, CRUDPaginatedMongo.updateSetData, suppliedValue, hu]
  · rcases hu : u.username with _ | (_ | v) <;>
      simp [applySet, CRUDPaginatedMongo.updateSetData, suppliedValue, hu]
  · rcases hu : u.fullName with _ | (_ | v) <;>
      simp [applySet, CRUDPaginatedMongo.updateSetData, suppliedValue, hu]
  · rcases hu : u.role with _ | (_ | v) <;>
      simp [applySet, CRUDPaginatedMongo.updateSetData, suppliedValue, hu]
  · rcases hu : u.password with _ | (_ | v) <;>
      simp [applySet, CRUDPaginatedMongo.updateSetData, suppliedValue, hu]

/-- C9 (amended): on the collection itself the claimed semantics hold,
with two repairs; the "still returns the current record" part does not
hold at all.  For `CRUDPaginatedMongo.update` a partial whose fields
are all absent or null is a no-op on the collection, answered by the
method's own `get`, and only non-null supplied fields overwrite the
stored document, every other field keeping its prior value.  For
`UserRepository.update` the same holds only of partials that supply no
explicit null: the all-unset partial is a no-op answered by `get`,
supplied values overwrite (with `password` re-hashed into
`hashed_password`), unsupplied fields keep their prior value — but a
field supplied as explicit JSON null is written as null (see the
counterexample), which the amendment therefore excludes.  And neither
no-op can return the current record: for a record id present in the
store, both `get`s raise `ValidationError` (the schema's required `id`
key is missing from the raw document), returning absent only when the
id matches nothing. -/
theorem update_partial_semantics (hash : String → String) :
    (∀ (store : List UserDocument) (mid : String) (u : UserUpdate),
        suppliedValue u.email = none → suppliedValue u.username = none →
        suppliedValue u.fullName = none → suppliedValue u.password = none →
        suppliedValue u.role = none →
        CRUDPaginatedMongo.update store mid u true =
          (CRUDPaginatedMongo.get store mid, store)) ∧
    (∀ (store : List UserDocument) (mid : String) (u : UserUpdate)
        (d : UserDocument),
        ObjectId.is_valid mid = true →
        findById store mid = some d →
        ∃ d', findById (CRUDPaginatedMongo.update store mid u true).2 mid =
            some d' ∧
          d'.email = (match suppliedValue u.email with
            | some v => some v | none => d.email) ∧
          d'.username = (match suppliedValue u.username with
            | some v => some v | none => d.username) ∧
          d'.fullName = (match suppliedValue u.fullName with
            | some v => some v | none => d.fullName) ∧
          d'.role = (match suppliedValue u.role with
            | some v => some (some v) | none => d.role) ∧
          d'.password = (match suppliedValue u.password with
            | some v => some v | none => d.password) ∧
          d'.hashedPassword = d.hashedPassword ∧
          d'.createdAt = d.createdAt ∧ d'.updatedAt = d.updatedAt) ∧
    (∀ (store : List UserDocument) (userId : String) (u : UserUpdate),
        u.email ≠ some none → u.username ≠ some none → u.fullName ≠ some none →
        u.password ≠ some none → u.role ≠ some none →
        ((u.email = none → u.username = none → u.fullName = none →
            u.password = none → u.role = none →
            UserRepository.update hash store userId u =
              (UserRepository.get store userId, store)) ∧
         (∀ d, ObjectId.is_valid userId = true →
            findById store userId = some d →
            ∃ d', findById (UserRepository.update hash store userId u).2
                userId = some d' ∧
              d'.email =
                (match u.email with | some (some v) => some v | _ => d.email) ∧
              d'.username =
                (match u.username with | some (some v) => some v | _ => d.username) ∧
              d'.fullName =
                (match u.fullName with | some (some v) => some v | _ => d.fullName) ∧
              d'.role =
                (match u.role with
                 | some (some v) => some (some v) | _ => d.role) ∧
              d'.hashedPassword =
                (match u.password with
                 | some (some p) => hash p
                 | _ => d.hashedPassword) ∧
              d'.password = d.password ∧
              d'.createdAt = d.createdAt ∧ d'.updatedAt = d.updatedAt))) ∧
    (∀ (store : List UserDocument) (mid : String) (d : UserDocument),
        ObjectId.is_valid mid = true →
        findById store mid = some d →
        CRUDPaginatedMongo.get store mid = .error .validation ∧
        UserRepository.get store mid = .error .validation) := by
  refine ⟨?_, ?_, ?_, ?_⟩
  · intro store mid u h1 h2 h3 h4 h5
    have he := updateSetData_empty_of u h1 h2 h3 h4 h5
    by_cases hv : ObjectId.is_valid mid
    · simp [CRUDPaginatedMongo.update, hv, he]
    · simp [CRUDPaginatedMongo.update, CRUDPaginatedMongo.get, hv]
  · intro store mid u d hv hfind
    by_cases he : (CRUDPaginatedMongo.updateSetData u).isEmptyData
    · obtain ⟨h1, h2, h3, h4, h5⟩ := updateSetData_empty_fields u he
      refine ⟨d, ?_, ?_, ?_, ?_, ?_, ?_, rfl, rfl, rfl⟩
      · simp [CRUDPaginatedMongo.update, hv, he, hfind]
      · rw [h1]
      · rw [h2]
      · rw [h3]
      · rw [h5]
      · rw [h4]
    · refine ⟨applySet d (CRUDPaginatedMongo.updateSetData u), ?_, ?_⟩
      · have hstep : (CRUDPaginatedMongo.update store mid u true).2 =
            updateFirstById store mid
              (fun x => applySet x (CRUDPaginatedMongo.updateSetData u)) := by
          simp [CRUDPaginatedMongo.update, hv, he, hfind]
        rw [hstep, findById_updateFirstById store mid _ (fun x => applySet_id x _),
          hfind]
        rfl
      · exact applySet_updateSetData_fields u d
  · intro store userId u hne he' hf' hpw hr'
    constructor
    · intro h1 h2 h3 h4 h5
      have hempty : (UserRepository.repoSetData hash u).isEmptyData = true := by
        simp [UserRepository.repoSetData, SetData.isEmptyData, h1, h2, h3, h4, h5]
      simp [UserRepository.update, h4, hempty]
    · intro d hv hfind
      by_cases hemp : (UserRepository.repoSetData hash u).isEmptyData
      · obtain ⟨h1, h2, h3, h4, h5⟩ := repoSetData_empty_fields hash u hpw hemp
        refine ⟨d, ?_, ?_⟩
        · simp [UserRepository.update, h5, hemp, UserRepository.get, hv, hfind]
        · simp [h1, h2, h3, h4, h5]
      · have hstep : (UserRepository.update hash store userId u).2 =
            updateFirstById store userId
              (fun x => applySet x (UserRepository.repoSetData hash u)) := by
          rcases hp : u.password with _ | (_ | p)
          · simp [UserRepository.update, hp, hemp, hv]
          · exact absurd hp hpw
          · simp [UserRepository.update, hp, hemp, hv]
        refine ⟨applySet d (UserRepository.repoSetData hash u), ?_, ?_⟩
        · rw [hstep,
            findById_updateFirstById store userId _ (fun x => applySet_id x _),
            hfind]
          rfl
        · refine ⟨?_, ?_, ?_, ?_, ?_, rfl, rfl, rfl⟩
          · rcases hu : u.email with _ | (_ | v)
            · simp [applySet, UserRepository.repoSetData, hu]
            · exact absurd hu hne
            · simp [applySet, UserRepository.repoSetData, hu]
          · rcases hu : u.username with _ | (_ | v)
            · simp [applySet, UserRepository.repoSetData, hu]
            · exact absurd hu he'
            · simp [applySet, UserRepository.repoSetData, hu]
          · rcases hu : u.fullName with _ | (_ | v)
            · simp [applySet, UserRepository.repoSetData, hu]
            · exact absurd hu hf'
            · simp [applySet, UserRepository.repoSetData, hu]
          · rcases hu : u.role with _ | (_ | v)
            · simp [applySet, UserRepository.repoSetData, hu]
            · exact absurd hu hr'
            · simp [applySet, UserRepository.repoSetData, hu]
          · rcases hu : u.password with _ | (_ | v)
            · simp [applySet, UserRepository.repoSetData, hu]
            · exact absurd hu hpw
            · simp [applySet, UserRepository.repoSetData, hu]
  · intro store mid d hv hfind
    constructor
    · simp [CRUDPaginatedMongo.get, hv, hfind]
    · simp [UserRepository.get, hv, hfind]

/-- Witness for C9 (amended): the generic update treats the
explicit-null partial as a no-op answered by `get`, the repository
update treats the all-unset partial as a no-op answered by `get`, and
both `get`s raise `ValidationError` on the record that is present. -/
theorem update_partial_semantics_witness :
    CRUDPaginatedMongo.update [aliceDoc] oid1 exNullUpdate true =
      (CRUDPaginatedMongo.get [aliceDoc] oid1, [aliceDoc]) ∧
    UserRepository.update exHash [aliceDoc] oid1 exUnsetUpdate =
      (UserRepository.get [aliceDoc] oid1, [aliceDoc]) ∧
    (CRUDPaginatedMongo.get [aliceDoc] oid1 = .error .validation ∧
     UserRepository.get [aliceDoc] oid1 = .error .validation) :=
  ⟨(update_partial_semantics exHash).1 [aliceDoc] oid1 exNullUpdate
      rfl rfl rfl rfl rfl,
   ((update_partial_semantics exHash).2.2.1 [aliceDoc] oid1 exUnsetUpdate
      (by decide) (by decide) (by decide) (by decide) (by decide)).1
      rfl rfl rfl rfl rfl,
   (update_partial_semantics exHash).2.2.2 [aliceDoc] oid1 aliceDoc
      (by decide) (by decide)⟩

end CortexSupport
